import Mathlib

/-!
Verification development for the logging facility of the petanque-team-server
repository (`src/Log.py`).  The interesting code is the `Log` class: a
process-wide dispatcher that formats messages and routes them to up to three
destinations (console, append-only file, in-memory session buffer), plus the
`s_printf` interpolation helper used by the convenience wrappers I/W/E/D/R.

The embedding below is a direct shallow translation of `Log.py`:
pure helpers become Lean functions, the mutable class/module state becomes an
explicit `LogState` record threaded through the operations, and the
file-system interaction (whether an `open` call succeeds) becomes an explicit
environment parameter.
-/

/-! ## Python values and percent-formatting (used by `s_printf`)

`s_printf` applies Python's `%` operator to its template and argument tuple
and catches only `TypeError`.  We model the `%` operator on a small universe
of Python values (ints and strings) and the fragment of the format-string
language actually exercised here: plain conversions without flags, width,
precision or mapping keys.  In this fragment CPython behaves as follows:
`%d`/`%i` require a number (`TypeError` otherwise), `%s` accepts anything,
`%%` is a literal percent, a lone `%` at the end of the template is
`ValueError: incomplete format`, any other conversion character (e.g. `%q`)
is `ValueError: unsupported format character`, and leftover or missing
arguments are `TypeError`s (the argument is fetched before the conversion
character is inspected, so a missing argument wins over a bad conversion).
-/

inductive PyValue where
  | int (n : Int)
  | str (s : String)
deriving DecidableEq, Repr

/-- Python's `str()` on the modelled values. -/
def pyStr : PyValue → String
  | PyValue.int n => toString n
  | PyValue.str s => s

inductive PyError where
  | typeError
  | valueError
deriving DecidableEq, Repr

/-- One conversion: the behaviour of `%c` applied to one fetched argument. -/
def formatSpec (c : Char) (v : PyValue) : Except PyError String :=
  if c = 'd' ∨ c = 'i' then
    match v with
    | PyValue.int n => Except.ok (toString n)
    | PyValue.str _ => Except.error PyError.typeError
  else if c = 's' then
    Except.ok (pyStr v)
  else
    Except.error PyError.valueError

/-- CPython `template % args` on the modelled fragment (see section header). -/
def runFormat : List Char → List PyValue → Except PyError String
  | [], [] => Except.ok ""
  | [], _ :: _ => Except.error PyError.typeError
  | '%' :: [], _ => Except.error PyError.valueError
  | '%' :: '%' :: rest, args =>
      match runFormat rest args with
      | Except.ok s => Except.ok ("%" ++ s)
      | Except.error e => Except.error e
  | '%' :: _ :: _, [] => Except.error PyError.typeError
  | '%' :: c :: rest, a :: args =>
      match formatSpec c a with
      | Except.ok piece =>
          match runFormat rest args with
          | Except.ok s => Except.ok (piece ++ s)
          | Except.error e => Except.error e
      | Except.error e => Except.error e
  | c :: rest, args =>
      match runFormat rest args with
      | Except.ok s => Except.ok (String.singleton c ++ s)
      | Except.error e => Except.error e

def sprintfWarningMarker : String :=
  " [S_PRINTF_WARNING: Non-string format string used with arguments]"

def sprintfErrorMarker : String :=
  " [S_PRINTF_ERROR: Formatting failed, fallback to concatenation]"

/-- `s_printf` from `Log.py`.  With no extra arguments it returns `str(m)`.
With arguments and a non-string template it returns the space-joined string
forms plus the warning marker.  Otherwise it runs `%`-substitution, catching
only `TypeError` (fallback concatenation plus the error marker); a
`ValueError` from the `%` operator propagates to the caller, which we model
as `Except.error`. -/
def s_printf (message_or_format_string : PyValue) (args : List PyValue) :
    Except PyError String :=
  if args.isEmpty then
    Except.ok (pyStr message_or_format_string)
  else
    match message_or_format_string with
    | PyValue.str fmt =>
        match runFormat fmt.data args with
        | Except.ok s => Except.ok s
        | Except.error PyError.typeError =>
            Except.ok (String.intercalate " "
              (pyStr message_or_format_string :: args.map pyStr) ++
              sprintfErrorMarker)
        | Except.error PyError.valueError => Except.error PyError.valueError
    | m =>
        Except.ok (String.intercalate " " (pyStr m :: args.map pyStr) ++
          sprintfWarningMarker)

/-! ## Severity levels, routing masks and formatting configuration -/

inductive LogLevel where
  | INFO
  | WARNING
  | ERROR
  | DEBUG
  | RAW
deriving DecidableEq, Repr

/-- `LogAction` is a Python `enum.Flag` over the bits SAVE, PRINT, SESSION;
we model it as a record of the three bits. -/
structure LogAction where
  save : Bool
  print : Bool
  session : Bool
deriving DecidableEq, Repr

namespace LogAction

def NONE : LogAction := ⟨false, false, false⟩
def SAVE : LogAction := ⟨true, false, false⟩
def PRINT : LogAction := ⟨false, true, false⟩
def SESSION : LogAction := ⟨false, false, true⟩
def SAVE_PRINT : LogAction := ⟨true, true, false⟩
def SAVE_SESSION : LogAction := ⟨true, false, true⟩
def PRINT_SESSION : LogAction := ⟨false, true, true⟩
def ALL : LogAction := ⟨true, true, true⟩

/-- Bitwise `&` on flags. -/
def and (a b : LogAction) : LogAction :=
  ⟨a.save && b.save, a.print && b.print, a.session && b.session⟩

/-- Bitwise `|` on flags. -/
def or (a b : LogAction) : LogAction :=
  ⟨a.save || b.save, a.print || b.print, a.session || b.session⟩

/-- Python `Flag` membership `x in a` is `a & x == x`. -/
def mem (x a : LogAction) : Bool := and a x == x

end LogAction

/-- `EST_FUNCTION_LENGTH`: target width of indicator + padding + name. -/
def EST_FUNCTION_LENGTH : Nat := 70

/-- `SHORTER_FUNCTION_FILL_CHARACTER`. -/
def SHORTER_FUNCTION_FILL_CHARACTER : Char := ' '

/-- `CONTENT_SPACE`: width of the separator block between header and body. -/
def CONTENT_SPACE : Nat := 10

/-- `CONTENT_SPACE_CHARACTER`. -/
def CONTENT_SPACE_CHARACTER : Char := ' '

/-- `SPACE_BETWEEN_CONTENT_SPACE_AND_CONTENT`. -/
def SPACE_TOGGLE : Bool := true

/-- The per-level indicator strings from `_build_prefix`. -/
def levelIndicator : LogLevel → String
  | LogLevel.INFO => "I "
  | LogLevel.WARNING => "W ###"
  | LogLevel.ERROR => "E ### ###"
  | LogLevel.DEBUG => "D "
  | LogLevel.RAW => "R "

/-- The separator block appended after the header in `_build_prefix`. -/
def contentSpacer : String :=
  (if SPACE_TOGGLE then " " else "") ++
  String.mk (List.replicate CONTENT_SPACE CONTENT_SPACE_CHARACTER) ++
  (if SPACE_TOGGLE then " " else "")

/-- `Log._build_prefix`: indicator, optional fill to `EST_FUNCTION_LENGTH`
(skipped whenever `len(func_name) >= EST_FUNCTION_LENGTH`; negative fill is
clamped to zero), the function name, then the separator block. -/
def buildPrefix (level : LogLevel) (func_name : String) : String :=
  let ind := levelIndicator level
  let combined :=
    if func_name.length ≥ EST_FUNCTION_LENGTH then
      ind ++ func_name
    else
      let fill0 : Int :=
        (EST_FUNCTION_LENGTH : Int) - (func_name.length : Int) -
          (ind.length : Int)
      let fill : Int := if fill0 < 0 then 0 else fill0
      ind ++
        String.mk (List.replicate fill.toNat SHORTER_FUNCTION_FILL_CHARACTER)
        ++ func_name
  combined ++ contentSpacer

/-! ## Dispatcher state and operations

The `Log` class/module state: the lazily opened file handle (modelled as the
list of chunks written to it, each chunk already carrying its terminating
newline), the console output, the session buffer, the stderr diagnostics, and
the counters we need to observe file opens.  `Env` is the file system: it
says whether the n-th `open` attempt of the process succeeds. -/

structure Env where
  openOk : Nat → Bool

structure LogState where
  log_file_handler : Option (List String)
  files_created : Nat
  open_attempts : Nat
  stderr_out : List String
  console_out : String
  session_data : List String
  action_force_highest : LogAction

/-- The state at interpreter start: no file, empty buffers, ceiling `ALL`. -/
def initState : LogState :=
  { log_file_handler := none
    files_created := 0
    open_attempts := 0
    stderr_out := []
    console_out := ""
    session_data := []
    action_force_highest := LogAction.ALL }

/-- The `--- [APPLICATION STARTED] ---` banner of `_build_start_prefix`,
written as the first line of a newly opened file (`ts` is the open-time
timestamp). -/
def buildStartBanner (ts : String) : String :=
  let start_text := "--- [APPLICATION STARTED] ---"
  let approx_total_width :=
    "I ".length + EST_FUNCTION_LENGTH + (if SPACE_TOGGLE then 1 else 0) +
      CONTENT_SPACE + (if SPACE_TOGGLE then 1 else 0)
  let padding_len0 : Int :=
    ((approx_total_width : Int) - (start_text.length : Int) -
      (ts.length : Int) - 2) / 2
  let padding_len := if padding_len0 < 0 then 0 else padding_len0
  let padding_str := String.mk (List.replicate padding_len.toNat '-')
  "[" ++ ts ++ "] " ++ padding_str ++ start_text ++ padding_str

/-- The diagnostic printed to stderr when opening the log file fails. -/
def openErrorDiagnostic : String := "Error creating/opening log file"

/-- `Log._ensure_file_open`: a no-op when a handle exists; otherwise attempt
to open (attempt number = `open_attempts`), on success write the start banner,
on failure report one diagnostic to stderr and leave the handle unset. -/
def ensureFileOpen (env : Env) (ts : String) (s : LogState) : LogState :=
  match s.log_file_handler with
  | some _ => s
  | none =>
      if env.openOk s.open_attempts then
        { s with
            log_file_handler := some [buildStartBanner ts ++ "\n"]
            files_created := s.files_created + 1
            open_attempts := s.open_attempts + 1 }
      else
        { s with
            open_attempts := s.open_attempts + 1
            stderr_out := s.stderr_out ++ [openErrorDiagnostic] }

/-- `Log._print_log`: write to stdout, with or without a newline. -/
def printLog (content : String) (new_line : Bool) (s : LogState) : LogState :=
  { s with console_out :=
      s.console_out ++ content ++ (if new_line then "\n" else "") }

/-- `Log._save_log`: ensure the file is open, then append the content plus a
final newline; skipped when no handle is available. -/
def saveLog (env : Env) (ts : String) (full_line_content : String)
    (s : LogState) : LogState :=
  let s := ensureFileOpen env ts s
  match s.log_file_handler with
  | some chunks =>
      { s with log_file_handler := some (chunks ++ [full_line_content ++ "\n"]) }
  | none => s

/-- `Log._add_to_session`: append to the in-memory session buffer. -/
def addToSession (content : String) (new_line : Bool) (s : LogState) :
    LogState :=
  { s with session_data :=
      s.session_data ++ [content ++ (if new_line then "\n" else "")] }

/-- `Log._log`: compute the effective action `(action | NONE) & ceiling` and
dispatch to the enabled destinations, with the RAW-specific shapes.  `ts` is
the timestamp taken at the start of the call. -/
def logDispatch (env : Env) (level : LogLevel) (func_name : String)
    (message : String) (action : LogAction) (ts : String) (s : LogState) :
    LogState :=
  let effective := LogAction.and (LogAction.or action LogAction.NONE)
    s.action_force_highest
  let timestamp_str := "[" ++ ts ++ "] "
  if level = LogLevel.RAW then
    let s := if LogAction.mem LogAction.PRINT effective then
        printLog message false s else s
    let s := if LogAction.mem LogAction.SAVE effective then
        let rawFilePre := buildPrefix LogLevel.RAW
          (if func_name ≠ "" then func_name else "raw_log")
        saveLog env ts
          (timestamp_str ++ rawFilePre ++ "\n<<START RAW>>\n" ++ message ++
            "\n<<END RAW>>") s
      else s
    if LogAction.mem LogAction.SESSION effective then
      addToSession message false s else s
  else
    let linePre := buildPrefix level func_name
    let message_for_print_session := linePre ++ message
    let message_for_file := timestamp_str ++ linePre ++ message
    let s := if LogAction.mem LogAction.PRINT effective then
        printLog message_for_print_session true s else s
    let s := if LogAction.mem LogAction.SAVE effective then
        saveLog env ts message_for_file s else s
    if LogAction.mem LogAction.SESSION effective then
      addToSession message_for_print_session true s else s

/-- `Log.get_current_session`: `"".join` of the session buffer. -/
def getCurrentSession (s : LogState) : String := String.join s.session_data

/-- One call to the public logging API, as data. -/
structure EmitOp where
  level : LogLevel
  func_name : String
  message : String
  action : LogAction
  ts : String

/-- Run a sequence of logging calls. -/
def runOps (env : Env) (ops : List EmitOp) (s : LogState) : LogState :=
  ops.foldl
    (fun st op => logDispatch env op.level op.func_name op.message op.action
      op.ts st) s

/-- The strings a single dispatch call appends to the session buffer. -/
def sessionDelta (l : LogLevel) (f m : String) (a ceiling : LogAction) :
    List String :=
  if (LogAction.and a ceiling).session then
    [if l = LogLevel.RAW then m else buildPrefix l f ++ m ++ "\n"]
  else []

/-- The chunk one dispatch call appends to the file (RAW messages are
bracketed, others are the timestamped structured line). -/
def fileChunk (l : LogLevel) (f m t : String) : String :=
  if l = LogLevel.RAW then
    "[" ++ t ++ "] " ++
      buildPrefix LogLevel.RAW (if f ≠ "" then f else "raw_log") ++
      "\n<<START RAW>>\n" ++ m ++ "\n<<END RAW>>" ++ "\n"
  else
    "[" ++ t ++ "] " ++ buildPrefix l f ++ m ++ "\n"

/-- The string one dispatch call appends to the console. -/
def consoleDelta (l : LogLevel) (f m : String) (a ceiling : LogAction) :
    String :=
  if (LogAction.and a ceiling).print then
    (if l = LogLevel.RAW then m else buildPrefix l f ++ m ++ "\n")
  else ""

/-! ## Concrete fixtures used by counterexamples and witnesses -/

/-- A file system on which every open attempt fails. -/
def envAllFail : Env := ⟨fun _ => false⟩

/-- A file system on which every open attempt succeeds. -/
def envAllOk : Env := ⟨fun _ => true⟩

/-- An INFO emit of "a" with the default `ALL` mask. -/
def opInfoA : EmitOp := ⟨LogLevel.INFO, "main", "a", LogAction.ALL, "t1"⟩

/-- An INFO emit of "b" with the default `ALL` mask. -/
def opInfoB : EmitOp := ⟨LogLevel.INFO, "main", "b", LogAction.ALL, "t2"⟩

/-- A state whose log file is already open (and empty). -/
def openState : LogState := { initState with log_file_handler := some [] }

/-- A state whose routing ceiling admits only the session destination. -/
def sessionOnlyState : LogState :=
  { initState with action_force_highest := LogAction.SESSION }


/-! ## Basic lemmas about flags and the destination helpers -/

theorem or_NONE (a : LogAction) :
    LogAction.or a LogAction.NONE = a := by
  cases a with
  | mk s p ss => cases s <;> cases p <;> cases ss <;> rfl

theorem mem_SAVE_eq (a : LogAction) :
    LogAction.mem LogAction.SAVE a = a.save := by
  cases a with
  | mk s p ss => cases s <;> cases p <;> cases ss <;> rfl

theorem mem_PRINT_eq (a : LogAction) :
    LogAction.mem LogAction.PRINT a = a.print := by
  cases a with
  | mk s p ss => cases s <;> cases p <;> cases ss <;> rfl

theorem mem_SESSION_eq (a : LogAction) :
    LogAction.mem LogAction.SESSION a = a.session := by
  cases a with
  | mk s p ss => cases s <;> cases p <;> cases ss <;> rfl

@[simp] theorem ensureFileOpen_session (env : Env) (ts : String)
    (s : LogState) : (ensureFileOpen env ts s).session_data = s.session_data := by
  unfold ensureFileOpen
  split
  · rfl
  · split <;> rfl

@[simp] theorem ensureFileOpen_console (env : Env) (ts : String)
    (s : LogState) : (ensureFileOpen env ts s).console_out = s.console_out := by
  unfold ensureFileOpen
  split
  · rfl
  · split <;> rfl

@[simp] theorem ensureFileOpen_ceiling (env : Env) (ts : String)
    (s : LogState) :
    (ensureFileOpen env ts s).action_force_highest = s.action_force_highest := by
  unfold ensureFileOpen
  split
  · rfl
  · split <;> rfl

@[simp] theorem saveLog_session (env : Env) (ts c : String) (s : LogState) :
    (saveLog env ts c s).session_data = s.session_data := by
  unfold saveLog
  dsimp only
  split <;> simp_all

@[simp] theorem saveLog_console (env : Env) (ts c : String) (s : LogState) :
    (saveLog env ts c s).console_out = s.console_out := by
  unfold saveLog
  dsimp only
  split <;> simp_all

@[simp] theorem saveLog_ceiling (env : Env) (ts c : String) (s : LogState) :
    (saveLog env ts c s).action_force_highest = s.action_force_highest := by
  unfold saveLog
  dsimp only
  split <;> simp_all

@[simp] theorem printLog_session (c : String) (b : Bool) (s : LogState) :
    (printLog c b s).session_data = s.session_data := rfl

@[simp] theorem printLog_handler (c : String) (b : Bool) (s : LogState) :
    (printLog c b s).log_file_handler = s.log_file_handler := rfl

@[simp] theorem printLog_files (c : String) (b : Bool) (s : LogState) :
    (printLog c b s).files_created = s.files_created := rfl

@[simp] theorem printLog_attempts (c : String) (b : Bool) (s : LogState) :
    (printLog c b s).open_attempts = s.open_attempts := rfl

@[simp] theorem printLog_stderr (c : String) (b : Bool) (s : LogState) :
    (printLog c b s).stderr_out = s.stderr_out := rfl

@[simp] theorem printLog_ceiling (c : String) (b : Bool) (s : LogState) :
    (printLog c b s).action_force_highest = s.action_force_highest := rfl

@[simp] theorem addToSession_console (c : String) (b : Bool) (s : LogState) :
    (addToSession c b s).console_out = s.console_out := rfl

@[simp] theorem addToSession_handler (c : String) (b : Bool) (s : LogState) :
    (addToSession c b s).log_file_handler = s.log_file_handler := rfl

@[simp] theorem addToSession_files (c : String) (b : Bool) (s : LogState) :
    (addToSession c b s).files_created = s.files_created := rfl

@[simp] theorem addToSession_attempts (c : String) (b : Bool) (s : LogState) :
    (addToSession c b s).open_attempts = s.open_attempts := rfl

@[simp] theorem addToSession_stderr (c : String) (b : Bool) (s : LogState) :
    (addToSession c b s).stderr_out = s.stderr_out := rfl

@[simp] theorem addToSession_ceiling (c : String) (b : Bool) (s : LogState) :
    (addToSession c b s).action_force_highest = s.action_force_highest := rfl

@[simp] theorem addToSession_session (c : String) (b : Bool) (s : LogState) :
    (addToSession c b s).session_data =
      s.session_data ++ [c ++ (if b then "\n" else "")] := rfl

theorem logDispatch_ceiling (env : Env) (l : LogLevel) (f m : String)
    (a : LogAction) (t : String) (s : LogState) :
    (logDispatch env l f m a t s).action_force_highest =
      s.action_force_highest := by
  unfold logDispatch
  dsimp only
  repeat' split
  all_goals simp

theorem join_append_str (l1 l2 : List String) :
    String.join (l1 ++ l2) = String.join l1 ++ String.join l2 := by
  apply String.ext
  simp

theorem logDispatch_session_eq (env : Env) (l : LogLevel) (f m : String)
    (a : LogAction) (t : String) (s : LogState) :
    (logDispatch env l f m a t s).session_data =
      s.session_data ++ sessionDelta l f m a s.action_force_highest := by
  unfold logDispatch sessionDelta
  dsimp only
  rw [or_NONE]
  simp only [mem_SESSION_eq, mem_SAVE_eq, mem_PRINT_eq]
  repeat' split
  all_goals simp_all

theorem ensureFileOpen_of_some (env : Env) (ts : String) (s : LogState)
    (h : List String) (hh : s.log_file_handler = some h) :
    ensureFileOpen env ts s = s := by
  unfold ensureFileOpen
  rw [hh]

theorem ensureFileOpen_of_none_ok (env : Env) (ts : String) (s : LogState)
    (hnone : s.log_file_handler = none)
    (henv : env.openOk s.open_attempts = true) :
    ensureFileOpen env ts s =
      { s with
          log_file_handler := some [buildStartBanner ts ++ "\n"]
          files_created := s.files_created + 1
          open_attempts := s.open_attempts + 1 } := by
  unfold ensureFileOpen
  rw [hnone]
  simp [henv]

theorem ensureFileOpen_of_none_fail (env : Env) (ts : String) (s : LogState)
    (hnone : s.log_file_handler = none)
    (henv : env.openOk s.open_attempts = false) :
    ensureFileOpen env ts s =
      { s with
          open_attempts := s.open_attempts + 1
          stderr_out := s.stderr_out ++ [openErrorDiagnostic] } := by
  unfold ensureFileOpen
  rw [hnone]
  simp [henv]

theorem saveLog_of_some (env : Env) (ts c : String) (s : LogState)
    (h : List String) (hh : s.log_file_handler = some h) :
    saveLog env ts c s =
      { s with log_file_handler := some (h ++ [c ++ "\n"]) } := by
  unfold saveLog
  dsimp only
  rw [ensureFileOpen_of_some env ts s h hh, hh]

theorem saveLog_of_none_fail (env : Env) (ts c : String) (s : LogState)
    (hnone : s.log_file_handler = none)
    (henv : env.openOk s.open_attempts = false) :
    saveLog env ts c s =
      { s with
          open_attempts := s.open_attempts + 1
          stderr_out := s.stderr_out ++ [openErrorDiagnostic] } := by
  unfold saveLog
  dsimp only
  rw [ensureFileOpen_of_none_fail env ts s hnone henv]
  simp [hnone]

theorem saveLog_of_none_ok (env : Env) (ts c : String) (s : LogState)
    (hnone : s.log_file_handler = none)
    (henv : env.openOk s.open_attempts = true) :
    saveLog env ts c s =
      { s with
          log_file_handler := some [buildStartBanner ts ++ "\n", c ++ "\n"]
          files_created := s.files_created + 1
          open_attempts := s.open_attempts + 1 } := by
  unfold saveLog
  dsimp only
  rw [ensureFileOpen_of_none_ok env ts s hnone henv]
  rfl

theorem saveLog_handler_of_some (env : Env) (ts c : String) (s : LogState)
    (hh : s.log_file_handler.isSome = true) :
    (saveLog env ts c s).log_file_handler.isSome = true := by
  obtain ⟨h, hh'⟩ := Option.isSome_iff_exists.mp hh
  rw [saveLog_of_some env ts c s h hh']
  rfl

theorem saveLog_files_of_some (env : Env) (ts c : String) (s : LogState)
    (hh : s.log_file_handler.isSome = true) :
    (saveLog env ts c s).files_created = s.files_created := by
  obtain ⟨h, hh'⟩ := Option.isSome_iff_exists.mp hh
  rw [saveLog_of_some env ts c s h hh']

theorem saveLog_attempts_of_some (env : Env) (ts c : String) (s : LogState)
    (hh : s.log_file_handler.isSome = true) :
    (saveLog env ts c s).open_attempts = s.open_attempts := by
  obtain ⟨h, hh'⟩ := Option.isSome_iff_exists.mp hh
  rw [saveLog_of_some env ts c s h hh']

theorem saveLog_stderr_of_some (env : Env) (ts c : String) (s : LogState)
    (hh : s.log_file_handler.isSome = true) :
    (saveLog env ts c s).stderr_out = s.stderr_out := by
  obtain ⟨h, hh'⟩ := Option.isSome_iff_exists.mp hh
  rw [saveLog_of_some env ts c s h hh']

/-- A dispatch on a state whose file is already open never opens another
file: the handle stays, and the open/diagnostic counters are untouched. -/
theorem logDispatch_of_open (env : Env) (l : LogLevel) (f m : String)
    (a : LogAction) (t : String) (s : LogState)
    (hh : s.log_file_handler.isSome = true) :
    (logDispatch env l f m a t s).log_file_handler.isSome = true ∧
    (logDispatch env l f m a t s).files_created = s.files_created ∧
    (logDispatch env l f m a t s).open_attempts = s.open_attempts ∧
    (logDispatch env l f m a t s).stderr_out = s.stderr_out := by
  unfold logDispatch
  dsimp only
  repeat' split
  all_goals refine ⟨?_, ?_, ?_, ?_⟩
  all_goals
    simp_all [saveLog_handler_of_some, saveLog_files_of_some,
      saveLog_attempts_of_some, saveLog_stderr_of_some]

/-- A dispatch whose effective action has no SAVE bit leaves the whole file
state (handle, counters, stderr) untouched. -/
theorem logDispatch_no_save (env : Env) (l : LogLevel) (f m : String)
    (a : LogAction) (t : String) (s : LogState)
    (hs : (LogAction.and a s.action_force_highest).save = false) :
    (logDispatch env l f m a t s).log_file_handler = s.log_file_handler ∧
    (logDispatch env l f m a t s).files_created = s.files_created ∧
    (logDispatch env l f m a t s).open_attempts = s.open_attempts ∧
    (logDispatch env l f m a t s).stderr_out = s.stderr_out := by
  unfold logDispatch
  dsimp only
  rw [or_NONE]
  simp only [mem_SAVE_eq, mem_PRINT_eq, mem_SESSION_eq, hs]
  repeat' split
  all_goals refine ⟨?_, ?_, ?_, ?_⟩
  all_goals simp_all

theorem saveLog_handler_eq_of_some (env : Env) (ts c : String) (s : LogState)
    (h : List String) (hh : s.log_file_handler = some h) :
    (saveLog env ts c s).log_file_handler = some (h ++ [c ++ "\n"]) := by
  rw [saveLog_of_some env ts c s h hh]

theorem saveLog_handler_of_none_ok (env : Env) (ts c : String) (s : LogState)
    (hnone : s.log_file_handler = none)
    (henv : env.openOk s.open_attempts = true) :
    (saveLog env ts c s).log_file_handler =
      some [buildStartBanner ts ++ "\n", c ++ "\n"] := by
  rw [saveLog_of_none_ok env ts c s hnone henv]

theorem saveLog_files_of_none_ok (env : Env) (ts c : String) (s : LogState)
    (hnone : s.log_file_handler = none)
    (henv : env.openOk s.open_attempts = true) :
    (saveLog env ts c s).files_created = s.files_created + 1 := by
  rw [saveLog_of_none_ok env ts c s hnone henv]

theorem saveLog_handler_of_none_fail (env : Env) (ts c : String)
    (s : LogState) (hnone : s.log_file_handler = none)
    (henv : env.openOk s.open_attempts = false) :
    (saveLog env ts c s).log_file_handler = none := by
  rw [saveLog_of_none_fail env ts c s hnone henv]
  exact hnone

theorem saveLog_attempts_of_none_fail (env : Env) (ts c : String)
    (s : LogState) (hnone : s.log_file_handler = none)
    (henv : env.openOk s.open_attempts = false) :
    (saveLog env ts c s).open_attempts = s.open_attempts + 1 := by
  rw [saveLog_of_none_fail env ts c s hnone henv]

theorem saveLog_stderr_of_none_fail (env : Env) (ts c : String)
    (s : LogState) (hnone : s.log_file_handler = none)
    (henv : env.openOk s.open_attempts = false) :
    (saveLog env ts c s).stderr_out =
      s.stderr_out ++ [openErrorDiagnostic] := by
  rw [saveLog_of_none_fail env ts c s hnone henv]

theorem saveLog_files_of_none_fail (env : Env) (ts c : String)
    (s : LogState) (hnone : s.log_file_handler = none)
    (henv : env.openOk s.open_attempts = false) :
    (saveLog env ts c s).files_created = s.files_created := by
  rw [saveLog_of_none_fail env ts c s hnone henv]

/-- With the file already open and SAVE effective, one dispatch appends
exactly one chunk to the file. -/
theorem logDispatch_file_eq_of_some (env : Env) (l : LogLevel) (f m : String)
    (a : LogAction) (t : String) (s : LogState) (h : List String)
    (hh : s.log_file_handler = some h)
    (hs : (LogAction.and a s.action_force_highest).save = true) :
    (logDispatch env l f m a t s).log_file_handler =
      some (h ++ [fileChunk l f m t]) := by
  unfold logDispatch fileChunk
  dsimp only
  rw [or_NONE]
  simp only [mem_SAVE_eq, mem_PRINT_eq, mem_SESSION_eq, hs]
  repeat' split
  all_goals simp_all [saveLog_handler_eq_of_some]

theorem logDispatch_console_eq (env : Env) (l : LogLevel) (f m : String)
    (a : LogAction) (t : String) (s : LogState) :
    (logDispatch env l f m a t s).console_out =
      s.console_out ++ consoleDelta l f m a s.action_force_highest := by
  unfold logDispatch consoleDelta printLog
  dsimp only
  rw [or_NONE]
  simp only [mem_SAVE_eq, mem_PRINT_eq, mem_SESSION_eq]
  repeat' split
  all_goals simp_all [String.append_assoc]

theorem and_ALL (a : LogAction) : LogAction.and a LogAction.ALL = a := by
  cases a with
  | mk s p ss => cases s <;> cases p <;> cases ss <;> rfl

theorem runOps_nil (env : Env) (s : LogState) : runOps env [] s = s := rfl

theorem runOps_cons (env : Env) (op : EmitOp) (ops : List EmitOp)
    (s : LogState) :
    runOps env (op :: ops) s =
      runOps env ops
        (logDispatch env op.level op.func_name op.message op.action op.ts s) :=
  rfl

/-- Once the file is open, no further dispatch call creates another file,
attempts another open, or writes another diagnostic. -/
theorem runOps_of_open (env : Env) (ops : List EmitOp) (s : LogState)
    (hh : s.log_file_handler.isSome = true) :
    (runOps env ops s).log_file_handler.isSome = true ∧
    (runOps env ops s).files_created = s.files_created ∧
    (runOps env ops s).open_attempts = s.open_attempts ∧
    (runOps env ops s).stderr_out = s.stderr_out := by
  induction ops generalizing s with
  | nil => exact ⟨hh, rfl, rfl, rfl⟩
  | cons op ops ih =>
      rw [runOps_cons]
      obtain ⟨h1, h2, h3, h4⟩ :=
        logDispatch_of_open env op.level op.func_name op.message op.action
          op.ts s hh
      obtain ⟨g1, g2, g3, g4⟩ := ih _ h1
      exact ⟨g1, g2.trans h2, g3.trans h3, g4.trans h4⟩

/-- The session buffer only ever grows: running any operations appends. -/
theorem runOps_session_extends (env : Env) (ops : List EmitOp)
    (s : LogState) :
    ∃ t : List String,
      (runOps env ops s).session_data = s.session_data ++ t := by
  induction ops generalizing s with
  | nil => exact ⟨[], by simp [runOps_nil]⟩
  | cons op ops ih =>
      rw [runOps_cons]
      obtain ⟨t, ht⟩ :=
        ih (logDispatch env op.level op.func_name op.message op.action op.ts s)
      refine ⟨sessionDelta op.level op.func_name op.message op.action
        s.action_force_highest ++ t, ?_⟩
      rw [ht, logDispatch_session_eq, List.append_assoc]

/-- When every open attempt fails and every operation requests SAVE (under
ceiling `ALL`), each call retries the open, fails, and reports one more
diagnostic; the handle stays unset and no file is ever created. -/
theorem runOps_all_fail (env : Env) (ops : List EmitOp) (s : LogState)
    (henv : ∀ n, env.openOk n = false)
    (hnone : s.log_file_handler = none)
    (hceil : s.action_force_highest = LogAction.ALL)
    (hsave : ∀ op ∈ ops, op.action.save = true) :
    (runOps env ops s).log_file_handler = none ∧
    (runOps env ops s).open_attempts = s.open_attempts + ops.length ∧
    (runOps env ops s).stderr_out =
      s.stderr_out ++ List.replicate ops.length openErrorDiagnostic ∧
    (runOps env ops s).files_created = s.files_created := by
  induction ops generalizing s with
  | nil => exact ⟨hnone, by simp [runOps_nil], by simp [runOps_nil], rfl⟩
  | cons op ops ih =>
      rw [runOps_cons]
      have hsave1 : (LogAction.and op.action s.action_force_highest).save
          = true := by
        rw [hceil, and_ALL]
        exact hsave op (List.mem_cons_self op ops)
      set s1 := logDispatch env op.level op.func_name op.message op.action
        op.ts s with hs1
      have step : s1.log_file_handler = none ∧
          s1.open_attempts = s.open_attempts + 1 ∧
          s1.stderr_out = s.stderr_out ++ [openErrorDiagnostic] ∧
          s1.files_created = s.files_created := by
        rw [hs1]
        unfold logDispatch
        dsimp only
        rw [or_NONE]
        simp only [mem_SAVE_eq, mem_PRINT_eq, mem_SESSION_eq, hsave1]
        repeat' split
        all_goals refine ⟨?_, ?_, ?_, ?_⟩
        all_goals
          simp_all [saveLog_handler_of_none_fail, saveLog_attempts_of_none_fail,
            saveLog_stderr_of_none_fail, saveLog_files_of_none_fail, henv]
      obtain ⟨st1, st2, st3, st4⟩ := step
      have hceil1 : s1.action_force_highest = LogAction.ALL := by
        rw [hs1, logDispatch_ceiling]
        exact hceil
      obtain ⟨g1, g2, g3, g4⟩ := ih s1 st1 hceil1
        (fun o ho => hsave o (List.mem_cons_of_mem op ho))
      refine ⟨g1, ?_, ?_, g4.trans st4⟩
      · rw [g2, st2, List.length_cons]
        omega
      · rw [g3, st3, List.append_assoc]
        simp [List.replicate_succ]

theorem length_mk_replicate (n : Nat) (c : Char) :
    (String.mk (List.replicate n c)).length = n := by
  show (List.replicate n c).length = n
  exact List.length_replicate n c

/-- Closed form for the length of a built line header: the padded field
reaches `max EST_FUNCTION_LENGTH (indicator + name)`, then the separator
block follows. -/
theorem buildPrefix_length (level : LogLevel) (func_name : String) :
    (buildPrefix level func_name).length =
      max EST_FUNCTION_LENGTH
        ((levelIndicator level).length + func_name.length) +
      contentSpacer.length := by
  unfold buildPrefix
  dsimp only
  split
  · rename_i h
    rw [EST_FUNCTION_LENGTH] at h
    simp only [String.length_append, EST_FUNCTION_LENGTH]
    omega
  · rename_i h
    rw [EST_FUNCTION_LENGTH] at h
    simp only [String.length_append, length_mk_replicate, EST_FUNCTION_LENGTH]
    split <;> rename_i hfill <;> omega

/-- From a state with no handle, when the pending open attempt succeeds and
SAVE is effective, one dispatch opens the file (exactly one new file). -/
theorem logDispatch_opens (env : Env) (l : LogLevel) (f m : String)
    (a : LogAction) (t : String) (s : LogState)
    (hnone : s.log_file_handler = none)
    (henv : env.openOk s.open_attempts = true)
    (hs : (LogAction.and a s.action_force_highest).save = true) :
    (logDispatch env l f m a t s).log_file_handler.isSome = true ∧
    (logDispatch env l f m a t s).files_created = s.files_created + 1 := by
  unfold logDispatch
  dsimp only
  rw [or_NONE]
  simp only [mem_SAVE_eq, mem_PRINT_eq, mem_SESSION_eq, hs]
  repeat' split
  all_goals refine ⟨?_, ?_⟩
  all_goals
    simp_all [saveLog_handler_of_none_ok, saveLog_files_of_none_ok, henv]

/-! ## Claims -/

/-- C9: for every value `m`, `s_printf(m)` with no extra interpolation
arguments returns exactly `str(m)`; no fallback branch or diagnostic marker
is involved, even when `m` is not a string or contains `%` specifiers. -/
theorem C9_s_printf_no_args (m : PyValue) :
    s_printf m [] = Except.ok (pyStr m) := rfl

/-- C1 counterexample: `s_printf` with a string template containing the
invalid conversion `%q` and one argument raises `ValueError` (only
`TypeError` is caught), so the interpolation step can raise up to the
caller, contrary to the claim. -/
theorem C1_counterexample :
    s_printf (PyValue.str "%q") [PyValue.int 1] =
      Except.error PyError.valueError := rfl

/-- C1 (amended): `s_printf` never lets a `TypeError` escape — whenever
`%`-substitution does not fail with `ValueError` (invalid or incomplete
conversion specifier), it returns a string: on a type/argument-count
mismatch it returns the space-joined string forms of template and arguments
plus the error marker, on a non-string template the same concatenation plus
the warning marker; in particular the INFO-style case of a `%d` template
with a non-numeric argument returns a string containing both inputs and the
fallback marker.  A `ValueError` from the `%` operator, however, does
propagate. -/
theorem C1_s_printf_graceful (m : PyValue) (args : List PyValue)
    (hnv : ∀ fmt, m = PyValue.str fmt →
      runFormat fmt.data args ≠ Except.error PyError.valueError) :
    (∃ out : String, s_printf m args = Except.ok out) ∧
    (∀ fmt, m = PyValue.str fmt → args ≠ [] →
      runFormat fmt.data args = Except.error PyError.typeError →
      s_printf m args = Except.ok (String.intercalate " "
        (pyStr m :: args.map pyStr) ++ sprintfErrorMarker)) ∧
    ((∀ fmt, m ≠ PyValue.str fmt) → args ≠ [] →
      s_printf m args = Except.ok (String.intercalate " "
        (pyStr m :: args.map pyStr) ++ sprintfWarningMarker)) ∧
    s_printf (PyValue.str "value=%d") [PyValue.str "many"] =
      Except.ok ("value=%d many" ++ sprintfErrorMarker) := by
  refine ⟨?_, ?_, ?_, rfl⟩
  · by_cases ha : args.isEmpty
    · exact ⟨pyStr m, by simp [s_printf, ha]⟩
    · cases m with
      | int n =>
          exact ⟨String.intercalate " "
              (pyStr (PyValue.int n) :: args.map pyStr) ++
              sprintfWarningMarker,
            by simp [s_printf, ha]⟩
      | str fmt =>
          rcases hr : runFormat fmt.data args with e | r
          · cases e with
            | typeError =>
                exact ⟨String.intercalate " "
                    (pyStr (PyValue.str fmt) :: args.map pyStr) ++
                    sprintfErrorMarker,
                  by simp [s_printf, ha, hr]⟩
            | valueError => exact absurd hr (hnv fmt rfl)
          · exact ⟨r, by simp [s_printf, ha, hr]⟩
  · intro fmt hm hne hr
    subst hm
    cases args with
    | nil => exact absurd rfl hne
    | cons a as => simp [s_printf, hr]
  · intro hns hne
    cases m with
    | str fmt => exact absurd rfl (hns fmt)
    | int n =>
        cases args with
        | nil => exact absurd rfl hne
        | cons a as => simp [s_printf]

/-- Witness for C1: instantiating the amended theorem at the `%d` template
with the non-numeric argument `"x"` (the hypothesis holds there: the
substitution failure is a `TypeError`, not a `ValueError`). -/
theorem C1_s_printf_graceful_witness :
    s_printf (PyValue.str "count %d") [PyValue.str "x"] =
      Except.ok (String.intercalate " "
        (pyStr (PyValue.str "count %d") ::
          [PyValue.str "x"].map pyStr) ++ sprintfErrorMarker) :=
  (C1_s_printf_graceful (PyValue.str "count %d") [PyValue.str "x"]
      (by
        intro fmt hm hr
        injection hm with h
        subst h
        have hr' : Except.error PyError.typeError =
            (Except.error PyError.valueError : Except PyError String) := hr
        injection hr' with h2
        exact PyError.noConfusion h2)).2.1
    "count %d" rfl (by simp) rfl

/-- C2 counterexample: under the default configuration, a 69-character
origin label is shorter than the target width 70, yet with the INFO
indicator "I " the fill `70 - 69 - 2` is negative, clamps to zero, and the
prefix length is `2 + 69 + 12 = 83`, not `70 + 12 = 82`. -/
theorem C2_counterexample :
    (String.mk (List.replicate 69 'a')).length < EST_FUNCTION_LENGTH ∧
    (buildPrefix LogLevel.INFO (String.mk (List.replicate 69 'a'))).length ≠
      EST_FUNCTION_LENGTH + contentSpacer.length := by
  constructor
  · decide
  · rw [buildPrefix_length]
    decide

/-- C2 (amended): for every severity and origin label, the prefix length is
`max(targetWidth, len(indicator) + len(originLabel))` plus the
separator-block width (1 + 10 + 1 = 12 under the default configuration):
it equals the target width plus the separator block whenever
`len(indicator) + len(originLabel) ≤ targetWidth`, and
`len(indicator) + len(originLabel)` plus the separator block otherwise
(labels are never truncated, fill is clamped at zero). -/
theorem C2_buildPrefix_length (level : LogLevel) (func_name : String) :
    (buildPrefix level func_name).length =
      max EST_FUNCTION_LENGTH
        ((levelIndicator level).length + func_name.length) +
      contentSpacer.length ∧
    contentSpacer.length = 1 + CONTENT_SPACE + 1 :=
  ⟨buildPrefix_length level func_name, by decide⟩

/-- C3 counterexample: in an environment where opening the log file always
fails, two successive SAVE-routed INFO emits from the fresh state produce
two open attempts and two stderr diagnostics — the code retries the open on
every SAVE and reports a diagnostic each time, instead of marking the
destination unavailable after one diagnostic. -/
theorem C3_counterexample :
    (runOps envAllFail [opInfoA, opInfoB] initState).open_attempts = 2 ∧
    (runOps envAllFail [opInfoA, opInfoB] initState).stderr_out =
      [openErrorDiagnostic, openErrorDiagnostic] := by
  have h := runOps_all_fail envAllFail [opInfoA, opInfoB] initState
    (fun _ => rfl) rfl rfl
    (by
      intro op hop
      rcases List.mem_cons.mp hop with h1 | h1
      · rw [h1]; rfl
      · rw [List.mem_singleton.mp h1]; rfl)
  refine ⟨h.2.1.trans rfl, h.2.2.1.trans ?_⟩
  rfl

/-- C3 (amended): on open failure the handle stays unset and one diagnostic
is reported for that attempt, but the destination is not marked unavailable
for the rest of the process: every subsequent emit whose effective mask
contains SAVE retries the open; in an environment where every open fails,
n SAVE-routed emits produce n open attempts and n diagnostics, and the
writes are skipped (no file is ever created). -/
theorem C3_open_failure_retries (env : Env) (ops : List EmitOp)
    (henv : ∀ n, env.openOk n = false)
    (hsave : ∀ op ∈ ops, op.action.save = true) :
    (runOps env ops initState).log_file_handler = none ∧
    (runOps env ops initState).open_attempts = ops.length ∧
    (runOps env ops initState).stderr_out =
      List.replicate ops.length openErrorDiagnostic ∧
    (runOps env ops initState).files_created = 0 := by
  have h := runOps_all_fail env ops initState henv rfl rfl hsave
  refine ⟨h.1, h.2.1.trans (by simp [initState]), h.2.2.1.trans ?_,
    h.2.2.2.trans rfl⟩
  show initState.stderr_out ++ _ = _
  simp [initState]

/-- Witness for C3: one always-failing SAVE emit gives one attempt and one
diagnostic. -/
theorem C3_open_failure_retries_witness :
    (runOps envAllFail [opInfoA] initState).log_file_handler = none ∧
    (runOps envAllFail [opInfoA] initState).open_attempts = 1 ∧
    (runOps envAllFail [opInfoA] initState).stderr_out =
      List.replicate 1 openErrorDiagnostic ∧
    (runOps envAllFail [opInfoA] initState).files_created = 0 :=
  C3_open_failure_retries envAllFail [opInfoA] (fun _ => rfl)
    (by
      intro op hop
      rw [List.mem_singleton.mp hop]
      rfl)

/-- C4: a destination whose bit is absent from the ceiling mask never fires
regardless of the caller-supplied mask: no PRINT bit in the ceiling means
the console is untouched, no SAVE bit means the whole file state (handle,
open attempts, created files, stderr) is untouched, no SESSION bit means
the session buffer is untouched; and with the ceiling equal to SESSION
every emit (any severity, label, message, mask — including ALL) leaves the
console and file state unchanged and at most appends to the session
buffer. -/
theorem C4_ceiling_confines (env : Env) (l : LogLevel) (f m : String)
    (a : LogAction) (t : String) (s : LogState) :
    (s.action_force_highest.print = false →
      (logDispatch env l f m a t s).console_out = s.console_out) ∧
    (s.action_force_highest.save = false →
      (logDispatch env l f m a t s).log_file_handler = s.log_file_handler ∧
      (logDispatch env l f m a t s).files_created = s.files_created ∧
      (logDispatch env l f m a t s).open_attempts = s.open_attempts ∧
      (logDispatch env l f m a t s).stderr_out = s.stderr_out) ∧
    (s.action_force_highest.session = false →
      (logDispatch env l f m a t s).session_data = s.session_data) ∧
    (s.action_force_highest = LogAction.SESSION →
      (logDispatch env l f m a t s).console_out = s.console_out ∧
      (logDispatch env l f m a t s).log_file_handler = s.log_file_handler ∧
      (logDispatch env l f m a t s).files_created = s.files_created ∧
      (logDispatch env l f m a t s).open_attempts = s.open_attempts ∧
      (logDispatch env l f m a t s).session_data = s.session_data ++
        (if a.session then
          [if l = LogLevel.RAW then m else buildPrefix l f ++ m ++ "\n"]
         else [])) := by
  have hcons := logDispatch_console_eq env l f m a t s
  have hsess := logDispatch_session_eq env l f m a t s
  refine ⟨?_, ?_, ?_, ?_⟩
  · intro hp
    rw [hcons]
    have : consoleDelta l f m a s.action_force_highest = "" := by
      unfold consoleDelta
      simp [LogAction.and, hp]
    rw [this]
    simp
  · intro hsv
    exact logDispatch_no_save env l f m a t s (by simp [LogAction.and, hsv])
  · intro hss
    rw [hsess]
    have : sessionDelta l f m a s.action_force_highest = [] := by
      unfold sessionDelta
      simp [LogAction.and, hss]
    rw [this]
    simp
  · intro hceil
    have hns := logDispatch_no_save env l f m a t s
      (by simp [LogAction.and, hceil, LogAction.SESSION])
    refine ⟨?_, hns.1, hns.2.1, hns.2.2.1, ?_⟩
    · rw [hcons]
      have : consoleDelta l f m a s.action_force_highest = "" := by
        unfold consoleDelta
        simp [LogAction.and, hceil, LogAction.SESSION]
      rw [this]
      simp
    · rw [hsess]
      have : sessionDelta l f m a s.action_force_highest =
          (if a.session then
            [if l = LogLevel.RAW then m else buildPrefix l f ++ m ++ "\n"]
           else []) := by
        unfold sessionDelta
        simp [LogAction.and, hceil, LogAction.SESSION]
      rw [this]

/-- Witness for C4: an INFO emit requesting ALL under a SESSION-only
ceiling touches only the session buffer. -/
theorem C4_ceiling_confines_witness :
    (logDispatch envAllOk LogLevel.INFO "f" "m" LogAction.ALL "t"
        sessionOnlyState).console_out = sessionOnlyState.console_out ∧
    (logDispatch envAllOk LogLevel.INFO "f" "m" LogAction.ALL "t"
        sessionOnlyState).log_file_handler =
      sessionOnlyState.log_file_handler ∧
    (logDispatch envAllOk LogLevel.INFO "f" "m" LogAction.ALL "t"
        sessionOnlyState).files_created = sessionOnlyState.files_created ∧
    (logDispatch envAllOk LogLevel.INFO "f" "m" LogAction.ALL "t"
        sessionOnlyState).open_attempts = sessionOnlyState.open_attempts ∧
    (logDispatch envAllOk LogLevel.INFO "f" "m" LogAction.ALL "t"
        sessionOnlyState).session_data =
      sessionOnlyState.session_data ++
        (if LogAction.ALL.session then
          [if LogLevel.INFO = LogLevel.RAW then "m"
           else buildPrefix LogLevel.INFO "f" ++ "m" ++ "\n"]
         else []) :=
  (C4_ceiling_confines envAllOk LogLevel.INFO "f" "m" LogAction.ALL "t"
    sessionOnlyState).2.2.2 rfl

/-- C5: routing shapes of a RAW emit.  If PRINT is effective, the console
receives exactly the bare message (no structured prefix, no trailing line
break); if SESSION is effective, the bare message is appended to the
session buffer with no trailing break; if SAVE is effective and the file is
open, the file receives one chunk consisting of the timestamped RAW prefix
line, the `<<START RAW>>` delimiter, the message, and the `<<END RAW>>`
delimiter, terminated by exactly one line break. -/
theorem C5_raw_shapes (env : Env) (f m : String) (a : LogAction)
    (t : String) (s : LogState) :
    ((LogAction.and a s.action_force_highest).print = true →
      (logDispatch env LogLevel.RAW f m a t s).console_out =
        s.console_out ++ m) ∧
    ((LogAction.and a s.action_force_highest).session = true →
      (logDispatch env LogLevel.RAW f m a t s).session_data =
        s.session_data ++ [m]) ∧
    (∀ h : List String, s.log_file_handler = some h →
      (LogAction.and a s.action_force_highest).save = true → f ≠ "" →
      (logDispatch env LogLevel.RAW f m a t s).log_file_handler =
        some (h ++
          [("[" ++ t ++ "] " ++ buildPrefix LogLevel.RAW f ++
            "\n<<START RAW>>\n" ++ m ++ "\n<<END RAW>>") ++ "\n"])) := by
  refine ⟨?_, ?_, ?_⟩
  · intro hp
    rw [logDispatch_console_eq]
    have : consoleDelta LogLevel.RAW f m a s.action_force_highest = m := by
      unfold consoleDelta
      simp [hp]
    rw [this]
  · intro hss
    rw [logDispatch_session_eq]
    have : sessionDelta LogLevel.RAW f m a s.action_force_highest = [m] := by
      unfold sessionDelta
      simp [hss]
    rw [this]
  · intro h hh hsv hf
    rw [logDispatch_file_eq_of_some env LogLevel.RAW f m a t s h hh hsv]
    have : fileChunk LogLevel.RAW f m t =
        ("[" ++ t ++ "] " ++ buildPrefix LogLevel.RAW f ++
          "\n<<START RAW>>\n" ++ m ++ "\n<<END RAW>>") ++ "\n" := by
      unfold fileChunk
      simp [hf]
    rw [this]

/-- Witness for C5: a RAW emit with mask ALL on an open-file state. -/
theorem C5_raw_shapes_witness :
    (logDispatch envAllOk LogLevel.RAW "caller" "raw" LogAction.ALL "T"
        openState).console_out = openState.console_out ++ "raw" ∧
    (logDispatch envAllOk LogLevel.RAW "caller" "raw" LogAction.ALL "T"
        openState).session_data = openState.session_data ++ ["raw"] ∧
    (logDispatch envAllOk LogLevel.RAW "caller" "raw" LogAction.ALL "T"
        openState).log_file_handler =
      some ([] ++
        [("[" ++ "T" ++ "] " ++ buildPrefix LogLevel.RAW "caller" ++
          "\n<<START RAW>>\n" ++ "raw" ++ "\n<<END RAW>>") ++ "\n"]) := by
  have h := C5_raw_shapes envAllOk "caller" "raw" LogAction.ALL "T" openState
  exact ⟨h.1 rfl, h.2.1 rfl, h.2.2 [] rfl rfl (by simp)⟩

/-- C6: after three sequential INFO emits of "a", "b", "c" with the default
ALL mask and default ceiling, starting from the fresh state, the session
snapshot is the concatenation of the three structured lines
(prefix + message), in call order, each terminated by one line break —
whatever the origin labels and timestamps are, and whether or not the file
opens (the file system `env` is arbitrary). -/
theorem C6_session_three_lines (env : Env) (f1 f2 f3 t1 t2 t3 : String) :
    getCurrentSession (runOps env
      [⟨LogLevel.INFO, f1, "a", LogAction.ALL, t1⟩,
       ⟨LogLevel.INFO, f2, "b", LogAction.ALL, t2⟩,
       ⟨LogLevel.INFO, f3, "c", LogAction.ALL, t3⟩] initState) =
      (buildPrefix LogLevel.INFO f1 ++ "a" ++ "\n") ++
      (buildPrefix LogLevel.INFO f2 ++ "b" ++ "\n") ++
      (buildPrefix LogLevel.INFO f3 ++ "c" ++ "\n") := by
  unfold getCurrentSession
  rw [runOps_cons, runOps_cons, runOps_cons, runOps_nil]
  rw [logDispatch_session_eq, logDispatch_session_eq, logDispatch_session_eq,
    logDispatch_ceiling, logDispatch_ceiling, logDispatch_ceiling]
  dsimp only
  have hd : ∀ f msg : String,
      sessionDelta LogLevel.INFO f msg LogAction.ALL
        initState.action_force_highest =
        [buildPrefix LogLevel.INFO f ++ msg ++ "\n"] := by
    intro f msg
    unfold sessionDelta
    simp [initState, LogAction.and, LogAction.ALL]
  rw [hd f1 "a", hd f2 "b", hd f3 "c"]
  show String.join ([] ++ _ ++ _ ++ _) = _
  simp only [List.nil_append]
  apply String.ext
  simp [String.data_append]

/-- C7: for every severity, origin label, message and timestamp, when the
effective mask (caller mask intersected with the ceiling) has no bits set,
the dispatch is a no-op that still succeeds: it returns the state unchanged
(session buffer, file handle and counters, console, stderr all identical),
and being a total function it signals no error. -/
theorem C7_empty_mask_noop (env : Env) (l : LogLevel) (f m : String)
    (a : LogAction) (t : String) (s : LogState)
    (h : LogAction.and a s.action_force_highest = LogAction.NONE) :
    logDispatch env l f m a t s = s := by
  unfold logDispatch
  dsimp only
  rw [or_NONE, h]
  cases l <;> rfl

/-- Witness for C7: a SAVE_PRINT request under a SESSION-only ceiling has
empty effective mask, so the state is returned untouched. -/
theorem C7_empty_mask_noop_witness :
    logDispatch envAllOk LogLevel.INFO "main" "msg" LogAction.SAVE_PRINT "t"
        sessionOnlyState = sessionOnlyState :=
  C7_empty_mask_noop envAllOk LogLevel.INFO "main" "msg"
    LogAction.SAVE_PRINT "t" sessionOnlyState (by decide)

/-- C8: the log file is opened at most once per process.  A second
open-if-absent call after a successful open is a no-op reusing the existing
handle; and from the fresh state, in an environment where the first open
attempt succeeds, any non-empty sequence of emits whose masks all request
SAVE (under the default ALL ceiling) creates exactly one physical file. -/
theorem C8_open_once (env : Env) (ts : String) (s : LogState)
    (h : List String) (hh : s.log_file_handler = some h)
    (ops : List EmitOp) (henv : env.openOk 0 = true)
    (hsave : ∀ op ∈ ops, op.action.save = true) (hne : ops ≠ []) :
    ensureFileOpen env ts s = s ∧
    (runOps env ops initState).files_created = 1 := by
  refine ⟨ensureFileOpen_of_some env ts s h hh, ?_⟩
  cases ops with
  | nil => exact absurd rfl hne
  | cons op rest =>
      rw [runOps_cons]
      obtain ⟨ho, hf⟩ := logDispatch_opens env op.level op.func_name
        op.message op.action op.ts initState rfl henv
        (by
          rw [show initState.action_force_highest = LogAction.ALL from rfl,
            and_ALL]
          exact hsave op (List.mem_cons_self op rest))
      obtain ⟨_, g2, _, _⟩ := runOps_of_open env rest _ ho
      rw [g2, hf]
      rfl

/-- Witness for C8: reopening an already-open state is the identity, and a
single SAVE emit from the fresh state creates exactly one file. -/
theorem C8_open_once_witness :
    ensureFileOpen envAllOk "T" openState = openState ∧
    (runOps envAllOk [opInfoA] initState).files_created = 1 :=
  C8_open_once envAllOk "T" openState [] rfl [opInfoA] rfl
    (by
      intro op hop
      rw [List.mem_singleton.mp hop]
      rfl)
    (by simp)

/-- C10: the session buffer is append-only and its snapshot is monotone:
for every sequence of logging operations (any severity, label, message,
mask and timestamps) from any state, the prior snapshot is a prefix of the
later snapshot — existing entries are never removed, reordered or
modified. -/
theorem C10_session_monotone (env : Env) (ops : List EmitOp) (s : LogState) :
    ∃ t : String,
      getCurrentSession (runOps env ops s) = getCurrentSession s ++ t := by
  obtain ⟨d, hd⟩ := runOps_session_extends env ops s
  refine ⟨String.join d, ?_⟩
  unfold getCurrentSession
  rw [hd, join_append_str]
